import Mathlib

/-!
Shallow embedding of `octoprint_multicam/__init__.py` (the MultiCam plugin
for OctoPrint): the settings data model, the settings migration
(`on_settings_migrate`), the settings defaults (`get_settings_defaults`),
the webcam-descriptor translation (`get_webcam_configurations`), the
snapshot proxy (`take_webcam_snapshot`) and the module load entry point
(`__plugin_load__`), together with theorems checking the specification's
claims against them.

Profiles are persisted as Python dictionaries with string keys and values
that are strings, booleans, integers or `None`; we model such a value as
`PyVal` and a dictionary as an association list.  Fallible Python
expressions (attribute lookups, iteration over non-iterables) are modelled
with `Except PyError`.
-/

namespace MultiCam

/-- Runtime error kinds the source can raise: Python's `AttributeError` and
`TypeError`, plus OctoPrint's `WebcamNotAbleToTakeSnapshotException`
(imported on line 9 of the source) for contrast in statements. -/
inductive PyError where
  | attributeError
  | typeError
  | webcamNotAbleToTakeSnapshot
deriving Repr, DecidableEq

/-- Dynamically typed value stored in a profile dictionary. -/
inductive PyVal where
  | none
  | bool (b : Bool)
  | str (s : String)
  | int (n : Int)
deriving Repr, DecidableEq

/-- Profile record as persisted: a Python dict, modelled as an association
list from string keys to values. -/
abbrev Dict := List (String × PyVal)

/-- Python `d.get(key, None)`: the first binding of the key, or `None`
when the key is absent. -/
def dictGetVal (d : Dict) (k : String) : PyVal :=
  match d with
  | [] => PyVal.none
  | p :: tl => if p.1 = k then p.2 else dictGetVal tl k

/-- Python `d[key] = v`: replace the first binding of the key, or append a
new binding when the key is absent. -/
def dictSet (d : Dict) (k : String) (v : PyVal) : Dict :=
  match d with
  | [] => [(k, v)]
  | p :: tl => if p.1 = k then (k, v) :: tl else p :: dictSet tl k v

/-- Python truthiness of a `PyVal`: `None`, `False`, `""` and `0` are
falsy, everything else is truthy. -/
def PyVal.truthy : PyVal → Bool
  | PyVal.none => false
  | PyVal.bool b => b
  | PyVal.str s => decide (s ≠ "")
  | PyVal.int n => decide (n ≠ 0)

/-- Python `x or y`: `x` when `x` is truthy, otherwise `y`. -/
def pyOr (x y : PyVal) : PyVal :=
  if x.truthy then x else y

/-- Python `str(v)`, as used by the `"multicam/%s" % name` format on
line 101 of the source. -/
def pyStr : PyVal → String
  | PyVal.none => "None"
  | PyVal.bool true => "True"
  | PyVal.bool false => "False"
  | PyVal.str s => s
  | PyVal.int n => toString n

/-- Python `current < n` for a `current` that may be `None`, as evaluated
on lines 43 and 50 of the source.  Although the module declares
`__plugin_pythoncompat__ = ">=2.7,<4"`, line 140 is an f-string — a syntax
error under Python 2 — and the imports of lines 8-9 are Python-3-only
OctoPrint APIs, so the module only ever runs under Python 3, where
`None < n` raises `TypeError`. -/
def pyLt (current : Option Int) (n : Int) : Except PyError Bool :=
  match current with
  | Option.none => Except.error PyError.typeError
  | Option.some c => Except.ok (decide (c < n))

/-- Host legacy single-camera settings, read through
`octoprint.settings.settings().get(["webcam", ...])` on lines 45-52 and
63-68 of the source. -/
structure LegacySettings where
  stream : PyVal
  snapshot : PyVal
  streamRatio : PyVal
  flipH : PyVal
  flipV : PyVal
  rotate90 : PyVal
deriving Repr, DecidableEq

/-- Constant returned by `get_settings_version` (source line 36). -/
def get_settings_version : Int := 3

/-- Guard of source line 39,
`current is None or current < self.get_settings_version()`: Python's `or`
short-circuits, so the comparison is only evaluated on a non-`None`
`current` and the guard itself never raises. -/
def migrationGuard (current : Option Int) : Bool :=
  current.isNone || current.elim false (fun c => decide (c < get_settings_version))

/-- Loop body of the "Migrate to 2" step (source lines 44-48): overwrite
`snapshot`, `flipH`, `flipV` and `rotate90` of one profile with the legacy
single-camera values, in source order. -/
def migrateProfileTo2 (legacy : LegacySettings) (p : Dict) : Dict :=
  dictSet (dictSet (dictSet (dictSet p "snapshot" legacy.snapshot)
    "flipH" legacy.flipH) "flipV" legacy.flipV) "rotate90" legacy.rotate90

/-- Loop body of the "Migrate to 3" step (source lines 51-52): overwrite
`streamRatio` of one profile with the legacy value. -/
def migrateProfileTo3 (legacy : LegacySettings) (p : Dict) : Dict :=
  dictSet p "streamRatio" legacy.streamRatio

/-- Value of the local variable `profiles` after the two conditional
migration loops of `on_settings_migrate` (source lines 41-52), for a run
whose stored version is the integer `c` (a `None` version never reaches
the end of line 43's comparison, see `pyLt`). -/
def mutatedProfilesAt (legacy : LegacySettings) (stored : List Dict)
    (c : Int) : List Dict :=
  let profiles := stored
  let profiles := if c < 2 then profiles.map (migrateProfileTo2 legacy)
    else profiles
  if c < 3 then profiles.map (migrateProfileTo3 legacy) else profiles

/-- Profile list of `get_settings_defaults` (source lines 60-69): a single
profile named `"Default"` built from the legacy settings, whose
`isButtonEnabled` entry is the string `'true'`. -/
def get_settings_defaults (legacy : LegacySettings) : List Dict :=
  [[("name", PyVal.str "Default"),
    ("URL", legacy.stream),
    ("snapshot", legacy.snapshot),
    ("streamRatio", legacy.streamRatio),
    ("flipH", legacy.flipH),
    ("flipV", legacy.flipV),
    ("rotate90", legacy.rotate90),
    ("isButtonEnabled", PyVal.str "true")]]

/-- The settings migration `on_settings_migrate(self, target, current=None)`
(source lines 38-58).  An `Except.ok` result is the profile list persisted
under the `multicam_profiles` key; when the outer guard does not trigger
the stored list is left as it was.  Inside the guard, line 43 evaluates
`current < 2` — which raises `TypeError` for a `None` version (see `pyLt`),
so such a run persists nothing — line 50 evaluates `current < 3`, and the
inner `if` mirrors line 54: `if (self.get_settings_version() == 3)`
persists the mutated list, the `else` branch of line 58 resets to the
defaults. -/
def on_settings_migrate (legacy : LegacySettings) (stored : List Dict)
    (_target : Int) (current : Option Int) : Except PyError (List Dict) := do
  if migrationGuard current then
    let profiles := stored
    let lt2 ← pyLt current 2
    let profiles := if lt2 then profiles.map (migrateProfileTo2 legacy) else profiles
    let lt3 ← pyLt current 3
    let profiles := if lt3 then profiles.map (migrateProfileTo3 legacy) else profiles
    if get_settings_version = 3 then Except.ok profiles
    else Except.ok (get_settings_defaults legacy)
  else Except.ok stored

/-- Fixed timeouts and flags set in `__init__` (source lines 19-24). -/
def streamTimeout : Int := 15

/-- Snapshot timeout set in `__init__` (source line 21). -/
def snapshotTimeout : Int := 15

/-- Cache-buster flag set in `__init__` (source line 22). -/
def cacheBuster : Bool := true

/-- SSL-validation flag set in `__init__` (source line 23). -/
def snapshotSslValidation : Bool := true

/-- WebRTC ICE server list set in `__init__` (source line 24). -/
def webRtcServers : List String := []

/-- Element produced by iterating the argument of `map` on source line 126:
the profile list is wrapped in `enumerate(...)` on line 88, so each element
is the pair `(index, dict)`, not the dict itself. -/
inductive PyObj where
  | dict (d : Dict)
  | tuple (idx : Nat) (d : Dict)
deriving Repr, DecidableEq

/-- Python `profile.get(key, None)` as called on lines 91-98 of the source:
defined on a dict; on a tuple the attribute lookup of `get` raises
`AttributeError` (`'tuple' object has no attribute 'get'`). -/
def objGet (profile : PyObj) (k : String) : Except PyError PyVal :=
  match profile with
  | PyObj.dict d => Except.ok (dictGetVal d k)
  | PyObj.tuple _ _ => Except.error PyError.attributeError

/-- The `WebcamCompatibility(...)` record built on lines 108-117 of the
source. -/
structure WebcamCompatibility where
  stream : PyVal
  streamTimeout : Int
  streamRatio : PyVal
  cacheBuster : Bool
  streamWebrtcIceServers : List String
  snapshot : PyVal
  snapshotTimeout : Int
  snapshotSslValidation : Bool
deriving Repr, DecidableEq

/-- The `Webcam(...)` descriptor built on lines 100-124 of the source. -/
structure Webcam where
  name : String
  displayName : PyVal
  flipH : PyVal
  flipV : PyVal
  rotate90 : PyVal
  snapshotDisplay : PyVal
  canSnapshot : Bool
  compat : WebcamCompatibility
  extras : Dict
deriving Repr, DecidableEq

/-- The inner `profile_to_webcam` of `get_webcam_configurations` (source
lines 90-124), with the `profile.get` calls performed in source order. -/
def profile_to_webcam (profile : PyObj) : Except PyError Webcam := do
  let flipH := pyOr (← objGet profile "flipH") (PyVal.bool false)
  let flipV := pyOr (← objGet profile "flipV") (PyVal.bool false)
  let rotate90 := pyOr (← objGet profile "rotate90") (PyVal.bool false)
  let snapshot ← objGet profile "snapshot"
  let stream := pyOr (← objGet profile "URL") (PyVal.str "")
  let streamRatio := pyOr (← objGet profile "streamRatio") (PyVal.str "4:3")
  let canSnapshot := decide (snapshot ≠ PyVal.str "") && decide (snapshot ≠ PyVal.none)
  let name ← objGet profile "name"
  let name := pyOr name (PyVal.str "default")
  Except.ok
    { name := "multicam/" ++ pyStr name
      displayName := name
      flipH := flipH
      flipV := flipV
      rotate90 := rotate90
      snapshotDisplay := snapshot
      canSnapshot := canSnapshot
      compat :=
        { stream := stream
          streamTimeout := streamTimeout
          streamRatio := streamRatio
          cacheBuster := cacheBuster
          streamWebrtcIceServers := webRtcServers
          snapshot := snapshot
          snapshotTimeout := snapshotTimeout
          snapshotSslValidation := snapshotSslValidation }
      extras :=
        [("stream", stream),
         ("streamTimeout", PyVal.int streamTimeout),
         ("streamRatio", streamRatio),
         ("cacheBuster", PyVal.bool cacheBuster)] }

/-- Python `enumerate(...)` applied to the stored profile list on source
line 88: each profile becomes the pair `(index, profile)`. -/
def pyEnumerate (stored : List Dict) : List PyObj :=
  (stored.enum).map (fun p => PyObj.tuple p.1 p.2)

/-- The descriptor translator `get_webcam_configurations` (source lines
87-126): `list(map(profile_to_webcam, enumerate(stored)))`, which raises as
soon as `profile_to_webcam` raises on an element. -/
def get_webcam_configurations (stored : List Dict) : Except PyError (List Webcam) :=
  (pyEnumerate stored).mapM profile_to_webcam

/-- Observable outcome of a snapshot request: the URLs actually fetched
over HTTP, and the returned chunk stream or the raised error. -/
structure SnapshotOutcome where
  httpRequests : List String
  result : Except PyError (List String)
deriving Repr

/-- The snapshot proxy `take_webcam_snapshot` (source lines 128-148).  Its
first statement, line 129, is
`next(webcam for webcam in self.get_webcam_configurations if webcam.name == name)`:
the generator iterates over `self.get_webcam_configurations` itself — the
bound method object, with no call parentheses — and a method object is not
iterable, so Python raises `TypeError` there, before the descriptor lookup,
the snapshot-URL check, the mutex acquisition and the `requests.get` call;
no HTTP request is ever issued, on any input. -/
def take_webcam_snapshot (_stored : List Dict) (_name : String) : SnapshotOutcome :=
  { httpRequests := [], result := Except.error PyError.typeError }

/-- Attribute names available on a `MultiCamPlugin` instance: the methods
its class body defines (source lines 19-169) and the fields `__init__`
assigns (source lines 19-24).  The base classes on lines 12-17 are
OctoPrint's plugin mixins — external collaborators; per the specification
they provide the lifecycle callbacks (startup, settings, assets, templates,
webcam provider), none named `get_webcam_profiles`. -/
def multiCamPluginAttrs : List String :=
  ["get_assets", "on_after_startup", "get_settings_version",
   "on_settings_migrate", "get_settings_defaults", "get_sorting_key",
   "get_template_configs", "get_webcam_configurations",
   "take_webcam_snapshot", "get_version", "get_update_information",
   "streamTimeout", "snapshotTimeout", "cacheBuster",
   "snapshotSslValidation", "webRtcServers"]

/-- Python attribute lookup on the plugin instance: the attribute's name
when it exists, `AttributeError` otherwise. -/
def pyGetattr (attrs : List String) (name : String) : Except PyError String :=
  if name ∈ attrs then Except.ok name else Except.error PyError.attributeError

/-- The three module globals `__plugin_load__` assigns (source lines
174-185). -/
structure PluginModuleExports where
  implementation : List String
  helpers : List (String × String)
  hooks : List (String × String)
deriving Repr, DecidableEq

/-- The module load entry point `__plugin_load__` (source lines 174-185):
construct the plugin instance, build the helper table from the instance's
`get_webcam_profiles` attribute (line 179), and build the hook table from
its `get_update_information` attribute (lines 183-185). -/
def plugin_load : Except PyError PluginModuleExports := do
  let impl := multiCamPluginAttrs
  let helper ← pyGetattr impl "get_webcam_profiles"
  let hook ← pyGetattr impl "get_update_information"
  Except.ok
    { implementation := impl
      helpers := [("get_webcam_profiles", helper)]
      hooks := [("octoprint.plugin.softwareupdate.check_config", hook)] }

/-- Concrete legacy single-camera settings used by concrete instances. -/
def legacy0 : LegacySettings :=
  { stream := PyVal.str "http://legacy/stream"
    snapshot := PyVal.str "http://legacy/snap.jpg"
    streamRatio := PyVal.str "16:9"
    flipH := PyVal.bool true
    flipV := PyVal.bool false
    rotate90 := PyVal.bool false }

/-- Concrete stored profile from the specification's end-to-end example. -/
def cam1Profile : Dict :=
  [("name", PyVal.str "Cam1"), ("URL", PyVal.str "http://x/stream"),
   ("snapshot", PyVal.str "http://x/snap.jpg")]

/-- Concrete two-profile store used by concrete instances. -/
def stored0 : List Dict :=
  [cam1Profile, [("name", PyVal.str "Cam2"), ("flipH", PyVal.bool false)]]

/-- Concrete store whose single profile has the placeholder snapshot URL
`"http://"`. -/
def placeholderStore : List Dict :=
  [[("name", PyVal.str "Default"), ("URL", PyVal.str "http://x/stream"),
    ("snapshot", PyVal.str "http://")]]

/-- Descriptor the per-profile translation yields for `cam1Profile` when it
is handed the dict itself (not the `enumerate` pair). -/
def cam1Webcam : Webcam :=
  { name := "multicam/Cam1"
    displayName := PyVal.str "Cam1"
    flipH := PyVal.bool false
    flipV := PyVal.bool false
    rotate90 := PyVal.bool false
    snapshotDisplay := PyVal.str "http://x/snap.jpg"
    canSnapshot := true
    compat :=
      { stream := PyVal.str "http://x/stream"
        streamTimeout := 15
        streamRatio := PyVal.str "4:3"
        cacheBuster := true
        streamWebrtcIceServers := []
        snapshot := PyVal.str "http://x/snap.jpg"
        snapshotTimeout := 15
        snapshotSslValidation := true }
    extras :=
      [("stream", PyVal.str "http://x/stream"), ("streamTimeout", PyVal.int 15),
       ("streamRatio", PyVal.str "4:3"), ("cacheBuster", PyVal.bool true)] }

theorem dictGetVal_dictSet_same (d : Dict) (k : String) (v : PyVal) :
    dictGetVal (dictSet d k v) k = v := by
  induction d with
  | nil => simp [dictSet, dictGetVal]
  | cons p tl ih =>
    by_cases h : p.1 = k
    · simp [dictSet, dictGetVal, h]
    · simp [dictSet, dictGetVal, h, ih]

theorem dictGetVal_dictSet_ne (d : Dict) (k k' : String) (v : PyVal)
    (h : k' ≠ k) :
    dictGetVal (dictSet d k v) k' = dictGetVal d k' := by
  induction d with
  | nil => simp [dictSet, dictGetVal, Ne.symm h]
  | cons p tl ih =>
    by_cases hp : p.1 = k
    · simp [dictSet, dictGetVal, hp, Ne.symm h]
    · simp [dictSet, dictGetVal, hp, ih]

theorem mutatedProfilesAt_length (legacy : LegacySettings) (stored : List Dict)
    (c : Int) :
    (mutatedProfilesAt legacy stored c).length = stored.length := by
  unfold mutatedProfilesAt
  by_cases h2 : c < 2 <;> by_cases h3 : c < 3 <;> simp [h2, h3]

theorem migrated_profile_gets (legacy : LegacySettings) (p : Dict) :
    dictGetVal (migrateProfileTo3 legacy (migrateProfileTo2 legacy p)) "snapshot"
        = legacy.snapshot
    ∧ dictGetVal (migrateProfileTo3 legacy (migrateProfileTo2 legacy p)) "flipH"
        = legacy.flipH
    ∧ dictGetVal (migrateProfileTo3 legacy (migrateProfileTo2 legacy p)) "flipV"
        = legacy.flipV
    ∧ dictGetVal (migrateProfileTo3 legacy (migrateProfileTo2 legacy p)) "rotate90"
        = legacy.rotate90
    ∧ dictGetVal (migrateProfileTo3 legacy (migrateProfileTo2 legacy p)) "streamRatio"
        = legacy.streamRatio := by
  unfold migrateProfileTo3 migrateProfileTo2
  refine ⟨?_, ?_, ?_, ?_, ?_⟩ <;>
    simp +decide [dictGetVal_dictSet_same, dictGetVal_dictSet_ne]

/-- C1 counterexample: a migration run with a `None` stored version — half
of the claim's quantified range — raises `TypeError` at line 43's
`current < 2` (the module only runs under Python 3, see `pyLt`) and so
persists nothing: at the concrete two-profile store it does not produce
the mutated profile list the claim promises. -/
theorem migration_null_run_crashes_cex :
    on_settings_migrate legacy0 stored0 3 Option.none
        = Except.error PyError.typeError
    ∧ on_settings_migrate legacy0 stored0 3 Option.none
        ≠ Except.ok (stored0.map
            (fun p => migrateProfileTo3 legacy0 (migrateProfileTo2 legacy0 p))) := by
  constructor
  · rfl
  · intro hcon
    have h2 : (Except.error PyError.typeError : Except PyError (List Dict))
        = Except.ok (stored0.map
            (fun p => migrateProfileTo3 legacy0 (migrateProfileTo2 legacy0 p))) := hcon
    exact Except.noConfusion h2

/-- C1 (amended): migrating from stored version 1 overwrites the
`snapshot`, `flipH`, `flipV`, `rotate90` and `streamRatio` entries of every
stored profile with the legacy single-camera values and persists exactly
the N mutated profiles — the list is not reset; a run with a `None` stored
version instead passes the guard and then raises `TypeError` at line 43's
version comparison, persisting nothing. -/
theorem migration_v1_overwrites_null_raises (legacy : LegacySettings)
    (stored : List Dict) (target : Int) :
    on_settings_migrate legacy stored target (Option.some 1)
        = Except.ok (stored.map
            (fun p => migrateProfileTo3 legacy (migrateProfileTo2 legacy p)))
    ∧ (stored.map (fun p => migrateProfileTo3 legacy (migrateProfileTo2 legacy p))).length
        = stored.length
    ∧ (∀ q ∈ stored.map (fun p => migrateProfileTo3 legacy (migrateProfileTo2 legacy p)),
        dictGetVal q "snapshot" = legacy.snapshot
        ∧ dictGetVal q "flipH" = legacy.flipH
        ∧ dictGetVal q "flipV" = legacy.flipV
        ∧ dictGetVal q "rotate90" = legacy.rotate90
        ∧ dictGetVal q "streamRatio" = legacy.streamRatio)
    ∧ on_settings_migrate legacy stored target Option.none
        = Except.error PyError.typeError := by
  refine ⟨?_, by simp, ?_, ?_⟩
  · simp [on_settings_migrate, migrationGuard, pyLt, get_settings_version,
      bind, Except.bind, List.map_map, Function.comp]
  · intro q hq
    rcases List.mem_map.mp hq with ⟨p, _, rfl⟩
    exact migrated_profile_gets legacy p
  · simp [on_settings_migrate, migrationGuard, pyLt, bind, Except.bind]

/-- C7: running the migration when the stored version already equals the
target version 3 is a no-op — the run completes and the persisted list is
unchanged — and chaining a second run from version 3 onto the first still
yields the unchanged list, i.e. running it twice equals running it zero
times. -/
theorem migration_at_current_version_noop (legacy : LegacySettings)
    (stored : List Dict) (target : Int) :
    on_settings_migrate legacy stored target (Option.some 3) = Except.ok stored
    ∧ (on_settings_migrate legacy stored target (Option.some 3)).bind
        (fun out => on_settings_migrate legacy out target (Option.some 3))
        = Except.ok stored := by
  constructor <;>
    simp [on_settings_migrate, migrationGuard, get_settings_version, Except.bind]

/-- C10: on every run of the migration in which the outer version guard
triggers and the routine completes (returns instead of raising), the value
persisted under `multicam_profiles` is the mutated input profile list; the
reset branch of line 58 is unreachable because `get_settings_version`
equals the literal 3, and in particular the profile count is preserved.
(Runs with a `None` version trigger the guard but do not complete: line 43
raises `TypeError`, see `migration_null_run_crashes_cex`.) -/
theorem guarded_migration_persists_mutated_list (legacy : LegacySettings)
    (stored : List Dict) (target : Int) (current : Option Int) (out : List Dict)
    (hg : migrationGuard current = true)
    (hc : on_settings_migrate legacy stored target current = Except.ok out) :
    get_settings_version = 3
    ∧ out = mutatedProfilesAt legacy stored (current.getD 0)
    ∧ out.length = stored.length := by
  match current with
  | Option.none =>
    have h2 : (Except.error PyError.typeError : Except PyError (List Dict))
        = Except.ok out := hc
    exact absurd h2 (by simp)
  | Option.some c =>
    have hlt3 : c < 3 := by
      have h3 := hg
      simp [migrationGuard, get_settings_version] at h3
      exact h3
    have hout : out = mutatedProfilesAt legacy stored c := by
      have hc2 : (Except.ok (mutatedProfilesAt legacy stored c)
            : Except PyError (List Dict)) = Except.ok out := by
        rw [← hc]
        simp [on_settings_migrate, migrationGuard, pyLt, get_settings_version,
          mutatedProfilesAt, bind, Except.bind, hlt3]
      exact (Except.ok.injEq _ _ ▸ hc2).symm
    refine ⟨rfl, hout, ?_⟩
    rw [hout]
    exact mutatedProfilesAt_length legacy stored c

theorem guarded_migration_persists_mutated_list_witness :
    migrationGuard (Option.some 0) = true
    ∧ on_settings_migrate legacy0 stored0 7 (Option.some 0)
        = Except.ok (mutatedProfilesAt legacy0 stored0 0)
    ∧ (get_settings_version = 3
       ∧ mutatedProfilesAt legacy0 stored0 0
           = mutatedProfilesAt legacy0 stored0 ((Option.some (0 : Int)).getD 0)
       ∧ (mutatedProfilesAt legacy0 stored0 0).length = stored0.length) :=
  ⟨rfl, rfl,
    guarded_migration_persists_mutated_list legacy0 stored0 7 (Option.some 0)
      (mutatedProfilesAt legacy0 stored0 0) rfl rfl⟩

/-- C4: for a profile dictionary, the translated descriptor's `canSnapshot`
is true iff the profile's `snapshot` entry is present, non-null and
non-empty (a missing key reads as `None`, so missing, `None` and the empty
string all give false). -/
theorem canSnapshot_iff_snapshot_present_nonempty (d : Dict) (w : Webcam)
    (h : profile_to_webcam (PyObj.dict d) = Except.ok w) :
    w.canSnapshot = true
      ↔ (dictGetVal d "snapshot" ≠ PyVal.none
         ∧ dictGetVal d "snapshot" ≠ PyVal.str "") := by
  simp only [profile_to_webcam, objGet, bind, Except.bind, pure, Except.pure,
    Except.ok.injEq] at h
  subst h
  simp only [Bool.and_eq_true, decide_eq_true_eq]
  tauto

theorem canSnapshot_iff_snapshot_present_nonempty_witness :
    profile_to_webcam (PyObj.dict cam1Profile) = Except.ok cam1Webcam
    ∧ (cam1Webcam.canSnapshot = true
        ↔ (dictGetVal cam1Profile "snapshot" ≠ PyVal.none
           ∧ dictGetVal cam1Profile "snapshot" ≠ PyVal.str "")) :=
  ⟨rfl, canSnapshot_iff_snapshot_present_nonempty cam1Profile cam1Webcam rfl⟩

/-- C2 (code evaluated at the failing input): translating the store that
holds exactly the profile `{name: "Cam1", URL: "http://x/stream",
snapshot: "http://x/snap.jpg"}` yields no descriptor at all: line 88 wraps
the list in `enumerate`, so `profile_to_webcam` receives the pair
`(0, profile)` and the `profile.get("flipH", None)` call of line 91 raises
`AttributeError` instead of producing the `"multicam/Cam1"` descriptor. -/
theorem translator_raises_on_cam1_store :
    get_webcam_configurations [cam1Profile] = Except.error PyError.attributeError := rfl

/-- C3 (code evaluated at the failing input): the translator is not total —
a store holding one profile record (even the empty record, with every field
missing) raises `AttributeError` through the `enumerate` wrapping of
line 88 instead of defaulting the fields; only the empty store
translates. -/
theorem translator_raises_on_any_nonempty_store :
    get_webcam_configurations [[]] = Except.error PyError.attributeError
    ∧ get_webcam_configurations [] = Except.ok [] :=
  ⟨rfl, rfl⟩

/-- C5 (code evaluated at the failing input): a snapshot request for a name
matching no descriptor raises `TypeError` from line 129 — the lookup
iterates the bound method `self.get_webcam_configurations` itself, which is
not iterable — rather than the claimed
`WebcamNotAbleToTakeSnapshotException`; no HTTP request is issued. -/
theorem snapshot_fetch_unknown_name_type_error :
    (take_webcam_snapshot stored0 "multicam/nosuch").result
        = Except.error PyError.typeError
    ∧ (take_webcam_snapshot stored0 "multicam/nosuch").result
        ≠ Except.error PyError.webcamNotAbleToTakeSnapshot
    ∧ (take_webcam_snapshot stored0 "multicam/nosuch").httpRequests = [] :=
  ⟨rfl, by simp [take_webcam_snapshot], rfl⟩

/-- C6 (code evaluated at the failing input): a snapshot request whose
matching profile has the placeholder snapshot URL `"http://"` also raises
`TypeError` from line 129, before the placeholder check of lines 133-137
is ever reached, rather than the claimed
`WebcamNotAbleToTakeSnapshotException`; no HTTP request is issued. -/
theorem snapshot_fetch_placeholder_type_error :
    (take_webcam_snapshot placeholderStore "multicam/Default").result
        = Except.error PyError.typeError
    ∧ (take_webcam_snapshot placeholderStore "multicam/Default").result
        ≠ Except.error PyError.webcamNotAbleToTakeSnapshot
    ∧ (take_webcam_snapshot placeholderStore "multicam/Default").httpRequests = [] :=
  ⟨rfl, by simp [take_webcam_snapshot], rfl⟩

/-- C8 (code evaluated at the failing input): the load entry point does not
succeed — building the helper table on line 179 looks up
`get_webcam_profiles` on the plugin instance, the class defines no such
method (and assigns no such field), and `AttributeError` is raised before
the hook table is built. -/
theorem plugin_load_attribute_error :
    plugin_load = Except.error PyError.attributeError
    ∧ "get_webcam_profiles" ∉ multiCamPluginAttrs :=
  ⟨rfl, by decide⟩

/-- C9 counterexample: in the default settings the single profile's
button-enabled entry `isButtonEnabled` holds the string `"true"`, which
is not the boolean `true` the claim states. -/
theorem defaults_button_not_bool_cex :
    dictGetVal ((get_settings_defaults legacy0).headD []) "isButtonEnabled"
        = PyVal.str "true"
    ∧ dictGetVal ((get_settings_defaults legacy0).headD []) "isButtonEnabled"
        ≠ PyVal.bool true :=
  ⟨rfl, by decide⟩

/-- C9 (amended): the default settings contain exactly one profile, whose
name is `"Default"`, whose `URL`, `snapshot`, `streamRatio`, `flipH`,
`flipV` and `rotate90` entries are read from the host's legacy
single-camera settings, and whose button-enabled entry `isButtonEnabled`
is the string `"true"` (a truthy value), not the boolean `true`. -/
theorem defaults_single_profile_amended (legacy : LegacySettings) :
    (get_settings_defaults legacy).length = 1
    ∧ dictGetVal ((get_settings_defaults legacy).headD []) "name" = PyVal.str "Default"
    ∧ dictGetVal ((get_settings_defaults legacy).headD []) "URL" = legacy.stream
    ∧ dictGetVal ((get_settings_defaults legacy).headD []) "snapshot" = legacy.snapshot
    ∧ dictGetVal ((get_settings_defaults legacy).headD []) "streamRatio"
        = legacy.streamRatio
    ∧ dictGetVal ((get_settings_defaults legacy).headD []) "flipH" = legacy.flipH
    ∧ dictGetVal ((get_settings_defaults legacy).headD []) "flipV" = legacy.flipV
    ∧ dictGetVal ((get_settings_defaults legacy).headD []) "rotate90" = legacy.rotate90
    ∧ dictGetVal ((get_settings_defaults legacy).headD []) "isButtonEnabled"
        = PyVal.str "true"
    ∧ (PyVal.str "true").truthy = true :=
  ⟨rfl, rfl, rfl, rfl, rfl, rfl, rfl, rfl, rfl, rfl⟩

end MultiCam
